import Mathlib

/-!
Verification of the dataset search/list/client core of the `datagovmy-mcp`
server (source: `src/cli.js`, tool handlers, and `src/src/client.ts`, the
`DataGovMyClient`).

The TypeScript code is shallowly embedded:
each pure function becomes a Lean function; JavaScript strings become `String`
with `toLowerCase` modelled character-wise (`jsLower`) and `includes` as a
substring test on character lists (`jsIncludes`); the stable
`Array.prototype.sort` (stability required by ES2019) with comparator
`(a, b) => b[0] - a[0]` becomes the stable insertion sort from Mathlib with
the descending-score relation `scoreOrder`; `fetch` and `JSON.parse` become
oracle functions supplied as parameters; thrown exceptions become
`Except String`.
-/

namespace DataGovMy

/-! ## JavaScript string primitives -/

/-- Character-list version of "the list `needle` occurs at the start". -/
def leadsWith : List Char → List Char → Bool
  | [], _ => true
  | _ :: _, [] => false
  | a :: as, b :: bs => a == b && leadsWith as bs

/-- Character-list version of "the list `needle` occurs somewhere inside `hay`". -/
def occursIn (needle : List Char) (hay : List Char) : Bool :=
  leadsWith needle hay ||
    match hay with
    | [] => false
    | _ :: tl => occursIn needle tl

/-- Model of JavaScript `s.includes(t)`: `t` occurs as a substring of `s`.
In particular every string includes the empty string. -/
def jsIncludes (s t : String) : Bool := occursIn t.data s.data

/-- Model of JavaScript `s.toLowerCase()`: character-wise lowering
(the sources only ever compare ASCII identifiers and English text). -/
def jsLower (s : String) : String := String.mk (s.data.map Char.toLower)

/-! ## Data model (`src/cli.js`, interfaces `Dataset` and `DatasetsIndex`) -/

/-- The two upstream sources (`"opendosm"` and `"data_catalogue"`). -/
inductive DataSource where
  | opendosm
  | data_catalogue
deriving DecidableEq

/-- One record of the bundled static dataset index (`interface Dataset`). -/
structure Dataset where
  id : String
  name : String
  description : String
  category : Option String := none
  keywords : Option (List String) := none
deriving DecidableEq

/-- The bundled static index (`interface DatasetsIndex`). -/
structure DatasetsIndex where
  opendosm : List Dataset
  data_catalogue : List Dataset
deriving DecidableEq

/-- A dataset record tagged with its source, as produced by the JS spread
`{ ...d, source: "opendosm" }` in the `list_datasets`/`search_datasets`
handlers. -/
structure TaggedDataset where
  id : String
  name : String
  description : String
  category : Option String := none
  keywords : Option (List String) := none
  source : DataSource
deriving DecidableEq

/-- The spread `{ ...d, source }`. -/
def tagWith (s : DataSource) (d : Dataset) : TaggedDataset :=
  { id := d.id, name := d.name, description := d.description,
    category := d.category, keywords := d.keywords, source := s }

/-- JavaScript truthiness of an optional string argument:
`undefined` and `""` are falsy. -/
def jsTruthyStr : Option String → Bool
  | none => false
  | some s => !(s == "")

/-- Candidate collection shared by the `list_datasets` and `search_datasets`
handlers: `if (!source || source === "opendosm") datasets.push(...)` followed
by the same for `"data_catalogue"`, so opendosm records come first. -/
def collectDatasets (idx : DatasetsIndex) (source : Option String) : List TaggedDataset :=
  (if !jsTruthyStr source || source == some "opendosm" then
      idx.opendosm.map (tagWith .opendosm)
    else []) ++
  (if !jsTruthyStr source || source == some "data_catalogue" then
      idx.data_catalogue.map (tagWith .data_catalogue)
    else [])

/-! ## `list_datasets` handler (`src/cli.js` lines 397-434) -/

/-- Result object of the `list_datasets` handler. -/
structure ListResult where
  total : Nat
  limit : Nat
  offset : Nat
  count : Nat
  datasets : List TaggedDataset
deriving DecidableEq

/-- The `list_datasets` handler: collect, filter by category when the
`category` argument is truthy (`if (category)`), then paginate with
`datasets.slice(offset, offset + limit)`.  `limit` and `offset` are the
non-negative integers of the claims, modelled as `Nat`. -/
def listDatasets (idx : DatasetsIndex) (source : Option String)
    (category : Option String) (limit : Nat) (offset : Nat) : ListResult :=
  let datasets := collectDatasets idx source
  let datasets :=
    match category with
    | some c =>
        if c = "" then datasets
        else datasets.filter (fun (d : TaggedDataset) => d.category.map jsLower == some (jsLower c))
    | none => datasets
  let total := datasets.length
  let paginated := (datasets.drop offset).take limit
  { total := total, limit := limit, offset := offset,
    count := paginated.length, datasets := paginated }

/-- Reference behaviour of `list_datasets` written from the specification
text (§4.2): "If `categoryFilter` given, keeps only records whose `category`
case-insensitively equals it"; `total` counts after filtering and before
pagination; pagination returns the slice `[offset, offset+limit)`. -/
def listSpecRef (idx : DatasetsIndex) (source : Option String)
    (category : Option String) (limit : Nat) (offset : Nat) : ListResult :=
  let base := collectDatasets idx source
  let kept :=
    match category with
    | some c => base.filter (fun (d : TaggedDataset) => d.category.map jsLower == some (jsLower c))
    | none => base
  { total := kept.length, limit := limit, offset := offset,
    count := ((kept.drop offset).take limit).length,
    datasets := (kept.drop offset).take limit }

/-! ## `search_datasets` handler (`src/cli.js` lines 446-512) -/

/-- The per-record score of the search loop, with the already lower-cased
query `queryLower`: exact id match +100 else substring id match +50; name
substring +30; description substring +10; per keyword exact +40 else
substring +20, accumulated over `dataset.keywords || []`. -/
def scoreDataset (queryLower : String) (d : TaggedDataset) : Nat :=
  let s : Nat := 0
  let s := if queryLower = jsLower d.id then s + 100
           else if jsIncludes (jsLower d.id) queryLower then s + 50 else s
  let s := if jsIncludes (jsLower d.name) queryLower then s + 30 else s
  let s := if jsIncludes (jsLower d.description) queryLower then s + 10 else s
  (d.keywords.getD []).foldl
    (fun s kw => if queryLower = jsLower kw then s + 40
                 else if jsIncludes (jsLower kw) queryLower then s + 20 else s) s

/-- Reference scoring written from the specification text (§4.3): the query
is lower-cased, all comparisons are case-insensitive, and the clause bonuses
(100/50 for id, 30 for name, 10 for description, 40/20 per keyword) are
summed. -/
def refScoreSpec (query : String) (d : TaggedDataset) : Nat :=
  let ql := jsLower query
  (if ql = jsLower d.id then 100
   else if jsIncludes (jsLower d.id) ql then 50 else 0) +
  (if jsIncludes (jsLower d.name) ql then 30 else 0) +
  (if jsIncludes (jsLower d.description) ql then 10 else 0) +
  ((d.keywords.getD []).map
    (fun kw => if ql = jsLower kw then 40
               else if jsIncludes (jsLower kw) ql then 20 else 0)).sum

/-- Contribution of the id clause alone. -/
def idScore (queryLower : String) (d : TaggedDataset) : Nat :=
  if queryLower = jsLower d.id then 100
  else if jsIncludes (jsLower d.id) queryLower then 50 else 0

/-- Contribution of all clauses other than the id clause. -/
def restScore (queryLower : String) (d : TaggedDataset) : Nat :=
  (if jsIncludes (jsLower d.name) queryLower then 30 else 0) +
  (if jsIncludes (jsLower d.description) queryLower then 10 else 0) +
  ((d.keywords.getD []).map
    (fun kw => if queryLower = jsLower kw then 40
               else if jsIncludes (jsLower kw) queryLower then 20 else 0)).sum

/-- The scored candidate list: the loop pushes `[score, dataset]` exactly
when `score > 0`. -/
def searchScored (idx : DatasetsIndex) (source : Option String)
    (queryLower : String) : List (Nat × TaggedDataset) :=
  ((collectDatasets idx source).map (fun d => (scoreDataset queryLower d, d))).filter
    (fun p => decide (0 < p.1))

/-- The order used by `scoredDatasets.sort((a, b) => b[0] - a[0])`:
descending by score.  `Array.prototype.sort` is a stable sort (ES2019), so
the call is modelled by a stable sort with this relation. -/
def scoreOrder (a b : Nat × TaggedDataset) : Prop := b.1 ≤ a.1

instance : DecidableRel scoreOrder := fun a b => Nat.decLe b.1 a.1

instance : IsTotal (Nat × TaggedDataset) scoreOrder :=
  ⟨fun a b => Nat.le_total b.1 a.1⟩

instance : IsTrans (Nat × TaggedDataset) scoreOrder :=
  ⟨fun _ _ _ h1 h2 => Nat.le_trans h2 h1⟩

/-- The sorted scored list (stable descending sort by score). -/
def searchSorted (idx : DatasetsIndex) (source : Option String)
    (queryLower : String) : List (Nat × TaggedDataset) :=
  List.insertionSort scoreOrder (searchScored idx source queryLower)

/-- The `search_datasets` handler's record list: lower-case the query once,
score, drop zero scores, stable-sort descending, truncate with
`slice(0, limit)` and project the records. -/
def searchDatasets (idx : DatasetsIndex) (query : String)
    (source : Option String) (limit : Nat) : List TaggedDataset :=
  ((searchSorted idx source (jsLower query)).take limit).map (fun p => p.2)

/-- Result object of the `search_datasets` handler. -/
structure SearchResult where
  query : String
  count : Nat
  datasets : List TaggedDataset
deriving DecidableEq

/-- The full `search_datasets` result object. -/
def searchResult (idx : DatasetsIndex) (query : String)
    (source : Option String) (limit : Nat) : SearchResult :=
  let results := searchDatasets idx query source limit
  { query := query, count := results.length, datasets := results }

/-! ## API client (`src/src/client.ts`, class `DataGovMyClient`) -/

/-- A JSON-ish primitive filter value; `String(value)` becomes `jsPrimString`. -/
inductive JsPrim where
  | str (s : String)
  | num (n : Int)
  | bool (b : Bool)
deriving DecidableEq

/-- JavaScript `String(value)` on a filter value. -/
def jsPrimString : JsPrim → String
  | .str s => s
  | .num n => toString n
  | .bool b => if b then "true" else "false"

/-- The `QueryOptions` interface of the client; absent fields are `none` and
take their defaults (`limit = 100`, `offset = 0`, `metaOnly = false`) at the
destructuring site. -/
structure QueryOptions where
  filters : Option (List (String × JsPrim)) := none
  limit : Option Nat := none
  offset : Option Nat := none
  metaOnly : Option Bool := none
deriving DecidableEq

/-- The query-string parameters sent by the client, in append order:
`new URLSearchParams({ id: datasetId })`, then `meta_only=true` if
`metaOnly`, else `limit` and `offset` as decimal strings, then each filter
key/value pair with the value stringified. -/
def buildParams (datasetId : String) (o : QueryOptions) : List (String × String) :=
  let limit := o.limit.getD 100
  let offset := o.offset.getD 0
  let metaOnly := o.metaOnly.getD false
  let params := [("id", datasetId)]
  let params :=
    if metaOnly then params ++ [("meta_only", "true")]
    else params ++ [("limit", toString limit)] ++ [("offset", toString offset)]
  match o.filters with
  | some fs => fs.foldl (fun ps kv => ps ++ [(kv.1, jsPrimString kv.2)]) params
  | none => params

/-- Reference parameter list written from the specification text (§4.1/§6):
`id=<datasetId>`; `meta_only=true` instead of `limit`/`offset` when
`metaOnly`; otherwise `limit` and `offset` as decimal strings with defaults
100 and 0; one extra parameter per filter key/value pair, value
stringified. -/
def specParams (datasetId : String) (o : QueryOptions) : List (String × String) :=
  [("id", datasetId)] ++
  (if o.metaOnly.getD false then [("meta_only", "true")]
   else [("limit", toString (o.limit.getD 100)), ("offset", toString (o.offset.getD 0))]) ++
  (o.filters.getD []).map (fun kv => (kv.1, jsPrimString kv.2))

/-- An HTTP response as seen through `fetch`: status code, status text and
the (already JSON-decoded) body. -/
structure HttpResponse (β : Type) where
  status : Nat
  statusText : String
  body : β

/-- The `response.ok` property of `fetch`: status in the range 200-299. -/
def respOk {β : Type} (r : HttpResponse β) : Bool :=
  decide (200 ≤ r.status) && decide (r.status ≤ 299)

/-- `DataGovMyClient.queryOpenDOSM`: build the query parameters, issue one
fetch (the oracle `fetch` stands for the single GET against the fixed
OpenDOSM base URL), throw on non-2xx with the status and status text in the
message, otherwise return the parsed body unmodified. -/
def queryOpenDOSM {β : Type} (fetch : List (String × String) → HttpResponse β)
    (datasetId : String) (options : QueryOptions) : Except String β :=
  let response := fetch (buildParams datasetId options)
  if respOk response then .ok response.body
  else .error ("OpenDOSM API error: " ++ toString response.status ++ " " ++
               response.statusText)

/-- `DataGovMyClient.queryDataCatalogue`: identical to `queryOpenDOSM` up to
the base URL and the error-message prefix. -/
def queryDataCatalogue {β : Type} (fetch : List (String × String) → HttpResponse β)
    (datasetId : String) (options : QueryOptions) : Except String β :=
  let response := fetch (buildParams datasetId options)
  if respOk response then .ok response.body
  else .error ("Data Catalogue API error: " ++ toString response.status ++ " " ++
               response.statusText)

/-! ## Tool dispatcher (`src/cli.js`, the `CallToolRequestSchema` handler) -/

/-- Environment of the tool handler: the static index and the effectful
oracles (one fetch oracle per base URL, and `JSON.parse` for the `filters`
string argument, which may throw). -/
structure ToolEnv (β : Type) where
  index : DatasetsIndex
  fetchOpenDOSM : List (String × String) → HttpResponse β
  fetchDataCatalogue : List (String × String) → HttpResponse β
  parseFilters : String → Except String (List (String × JsPrim))

/-- The argument object of a tool call (a JS object; fields the given tool
does not read are simply ignored, fields it reads but the caller omitted are
`none`/defaults, mirroring `undefined`). -/
structure ToolCallArgs where
  dataset_id : String := ""
  filters : Option String := none
  limit : Option Nat := none
  offset : Option Nat := none
  source : Option String := none
  category : Option String := none
  query : String := ""
deriving DecidableEq

/-- `const filterDict = filters ? JSON.parse(filters) : undefined` —
an absent or empty (falsy) `filters` string yields no filter dictionary,
otherwise `JSON.parse` runs and may throw. -/
def parseFilterArg {β : Type} (env : ToolEnv β) (filters : Option String) :
    Except String (Option (List (String × JsPrim))) :=
  match filters with
  | some fs => if fs = "" then .ok none else (env.parseFilters fs).map some
  | none => .ok none

/-- The static-index part of a `get_dataset_schema` result: either the
record found in the index or the placeholder
`{ id: dataset_id, name: "Unknown" }`. -/
inductive SchemaInfo where
  | fromIndex (d : Dataset)
  | placeholder (id : String) (name : String)
deriving DecidableEq

/-- Result object of the `get_dataset_schema` handler. -/
structure SchemaResult (β : Type) where
  dataset_id : String
  source : Option String
  info : SchemaInfo
  metadata : β
  sample_data : β
deriving DecidableEq

/-- Successful payload of one tool call (before JSON serialisation). -/
inductive ToolData (β : Type) where
  | api (v : β)
  | listing (r : ListResult)
  | searching (r : SearchResult)
  | schema (r : SchemaResult β)
deriving DecidableEq

/-- One side of the static index. -/
def indexSide (idx : DatasetsIndex) : DataSource → List Dataset
  | .opendosm => idx.opendosm
  | .data_catalogue => idx.data_catalogue

/-- The names the `switch (name)` dispatch recognises. -/
def knownToolNames : List String :=
  ["query_opendosm", "query_data_catalogue", "get_dataset_metadata",
   "list_datasets", "search_datasets", "get_dataset_schema"]

/-- The body of the `try` block of the `CallToolRequestSchema` handler:
dispatch on the tool name; any `throw` becomes `Except.error` with the
thrown message. -/
def innerDispatch {β : Type} (env : ToolEnv β) (name : String)
    (args : ToolCallArgs) : Except String (ToolData β) :=
  if name = "query_opendosm" then
    match parseFilterArg env args.filters with
    | .error e => .error e
    | .ok filterDict =>
        (queryOpenDOSM env.fetchOpenDOSM args.dataset_id
          { filters := filterDict, limit := some (args.limit.getD 100),
            offset := some (args.offset.getD 0) }).map .api
  else if name = "query_data_catalogue" then
    match parseFilterArg env args.filters with
    | .error e => .error e
    | .ok filterDict =>
        (queryDataCatalogue env.fetchDataCatalogue args.dataset_id
          { filters := filterDict, limit := some (args.limit.getD 100),
            offset := some (args.offset.getD 0) }).map .api
  else if name = "get_dataset_metadata" then
    if args.source = some "opendosm" then
      (queryOpenDOSM env.fetchOpenDOSM args.dataset_id { metaOnly := some true }).map .api
    else if args.source = some "data_catalogue" then
      (queryDataCatalogue env.fetchDataCatalogue args.dataset_id { metaOnly := some true }).map .api
    else .error "Invalid source. Must be 'opendosm' or 'data_catalogue'"
  else if name = "list_datasets" then
    .ok (.listing (listDatasets env.index args.source args.category
          (args.limit.getD 100) (args.offset.getD 0)))
  else if name = "search_datasets" then
    .ok (.searching (searchResult env.index args.query args.source (args.limit.getD 10)))
  else if name = "get_dataset_schema" then
    let sourceKey : DataSource :=
      if args.source = some "opendosm" then .opendosm else .data_catalogue
    let datasetInfo := (indexSide env.index sourceKey).find?
      (fun ds => ds.id == args.dataset_id)
    match (if args.source = some "opendosm" then
             queryOpenDOSM env.fetchOpenDOSM args.dataset_id { metaOnly := some true }
           else if args.source = some "data_catalogue" then
             queryDataCatalogue env.fetchDataCatalogue args.dataset_id { metaOnly := some true }
           else .error "Invalid source. Must be 'opendosm' or 'data_catalogue'") with
    | .error e => .error e
    | .ok metadata =>
        match (if args.source = some "opendosm" then
                 queryOpenDOSM env.fetchOpenDOSM args.dataset_id { limit := some 3 }
               else
                 queryDataCatalogue env.fetchDataCatalogue args.dataset_id { limit := some 3 }) with
        | .error e => .error e
        | .ok sampleData =>
            .ok (.schema
              { dataset_id := args.dataset_id, source := args.source,
                info := match datasetInfo with
                        | some d => .fromIndex d
                        | none => .placeholder args.dataset_id "Unknown",
                metadata := metadata, sample_data := sampleData })
  else .error ("Unknown tool: " ++ name)

/-- Content of the tool response: the serialised data on success, or the
structured `{ error, tool, arguments }` object on failure. -/
inductive ToolContent (β : Type) where
  | success (d : ToolData β)
  | failure (error : String) (tool : String) (arguments : ToolCallArgs)
deriving DecidableEq

/-- A tool response as returned to the protocol layer. -/
structure ToolResponse (β : Type) where
  content : ToolContent β
  isError : Bool
deriving DecidableEq

/-- The whole `CallToolRequestSchema` handler: run the dispatch and catch
every error, turning it into structured content with `isError: true`. -/
def handleToolCall {β : Type} (env : ToolEnv β) (name : String)
    (args : ToolCallArgs) : ToolResponse β :=
  match innerDispatch env name args with
  | .ok v => { content := .success v, isError := false }
  | .error msg => { content := .failure msg name args, isError := true }

/-- The info part of a `get_dataset_schema` result: the record found in the
given side of the static index by exact id equality, or the placeholder
`{ id: dataset_id, name: "Unknown" }` when absent. -/
def schemaInfoLookup (idx : DatasetsIndex) (key : DataSource) (dsId : String) : SchemaInfo :=
  match (indexSide idx key).find? (fun ds => ds.id == dsId) with
  | some d => .fromIndex d
  | none => .placeholder dsId "Unknown"

/-! ## Concrete fixtures used by witnesses and counterexamples -/

/-- A record whose id is exactly `"gdp"` and whose other fields do not
mention the query. -/
def dExact : Dataset := { id := "gdp", name := "G", description := "D" }

/-- A record whose id only contains `"gdp"` but whose name, description and
three keywords all match it. -/
def dRich : Dataset :=
  { id := "gdp_qtr", name := "GDP quarterly", description := "gdp data",
    keywords := some ["gdp a", "gdp b", "gdp c"] }

/-- Index for the C3 counterexample. -/
def cIdx3 : DatasetsIndex := { opendosm := [dExact, dRich], data_catalogue := [] }

/-- The bare `{id:"gdp"}` record of the specification's §8 example. -/
def gdpRec : Dataset := { id := "gdp", name := "", description := "" }

/-- The bare `{id:"gdp_qtr"}` record of the specification's §8 example. -/
def gdpQtrRec : Dataset := { id := "gdp_qtr", name := "", description := "" }

/-- Index of the specification's §8 `search("gdp")` example. -/
def gdpIdx : DatasetsIndex := { opendosm := [gdpRec, gdpQtrRec], data_catalogue := [] }

/-- A single categorised record. -/
def rPrices : Dataset := { id := "a", name := "A", description := "", category := some "Prices" }

/-- Index for the C4 counterexample and witnesses. -/
def cIdx4 : DatasetsIndex := { opendosm := [rPrices], data_catalogue := [] }

/-- Two opendosm records that tie on the query `"al"` (both names contain
it, nothing else matches). -/
def rAlpha : Dataset := { id := "a1", name := "alpha", description := "" }

/-- Second record tying with `rAlpha` on the query `"al"`. -/
def rAltitude : Dataset := { id := "b2", name := "altitude", description := "" }

/-- Index for the C2 stability witness. -/
def cIdx2 : DatasetsIndex := { opendosm := [rAlpha, rAltitude], data_catalogue := [] }

/-- An opendosm record and a data-catalogue record that tie on `"z"`. -/
def rZeta : Dataset := { id := "o1", name := "zeta", description := "" }

/-- The data-catalogue side of the C9 tie. -/
def rZinc : Dataset := { id := "d1", name := "zinc", description := "" }

/-- Index for the C9 witness: one record per source, tying scores. -/
def cIdx9 : DatasetsIndex := { opendosm := [rZeta], data_catalogue := [rZinc] }

/-- A fetch oracle that always fails with 404. -/
def fetch404 : List (String × String) → HttpResponse Nat :=
  fun _ => { status := 404, statusText := "Not Found", body := 0 }

/-- A fetch oracle that always succeeds with body `7`. -/
def fetch200 : List (String × String) → HttpResponse Nat :=
  fun _ => { status := 200, statusText := "OK", body := 7 }

/-- A tool environment over `Nat` bodies for the C7 witness. -/
def env0 : ToolEnv Nat :=
  { index := cIdx4, fetchOpenDOSM := fetch200, fetchDataCatalogue := fetch200,
    parseFilters := fun _ => .error "bad json" }

/-- A fetch oracle that echoes the query parameters it was given. -/
def fetchEcho : List (String × String) → HttpResponse (List (String × String)) :=
  fun ps => { status := 200, statusText := "OK", body := ps }

/-- A tool environment whose responses echo the request parameters, for the
C8 witness; its index does not contain `"fuelprice"`. -/
def envEcho : ToolEnv (List (String × String)) :=
  { index := cIdx4, fetchOpenDOSM := fetchEcho, fetchDataCatalogue := fetchEcho,
    parseFilters := fun _ => .ok [] }

/-! ## Helper lemmas -/

theorem occursIn_nil (l : List Char) : occursIn [] l = true := by
  cases l <;> simp [occursIn, leadsWith]

theorem jsIncludes_empty (s : String) : jsIncludes s "" = true := by
  show occursIn ("" : String).data s.data = true
  have h : ("" : String).data = [] := rfl
  rw [h]
  exact occursIn_nil _

theorem kwFoldl_eq_sum (ql : String) (l : List String) (s : Nat) :
    l.foldl (fun s kw => if ql = jsLower kw then s + 40
                         else if jsIncludes (jsLower kw) ql then s + 20 else s) s
      = s + (l.map (fun kw => if ql = jsLower kw then 40
                              else if jsIncludes (jsLower kw) ql then 20 else 0)).sum := by
  induction l generalizing s with
  | nil => simp
  | cons kw tl ih =>
      simp only [List.foldl_cons, List.map_cons, List.sum_cons, ih]
      split_ifs <;> omega

theorem kwFoldl_le (ql : String) (l : List String) (s : Nat) :
    s ≤ l.foldl (fun s kw => if ql = jsLower kw then s + 40
                             else if jsIncludes (jsLower kw) ql then s + 20 else s) s := by
  rw [kwFoldl_eq_sum]
  omega

theorem score_decomp (ql : String) (d : TaggedDataset) :
    scoreDataset ql d = idScore ql d + restScore ql d := by
  simp only [scoreDataset, idScore, restScore, kwFoldl_eq_sum]
  split_ifs <;> omega

theorem mem_searchScored {idx : DatasetsIndex} {src : Option String} {ql : String}
    {p : Nat × TaggedDataset} (h : p ∈ searchScored idx src ql) :
    p.2 ∈ collectDatasets idx src ∧ p.1 = scoreDataset ql p.2 ∧ 0 < p.1 := by
  simp only [searchScored, List.mem_filter, List.mem_map] at h
  obtain ⟨⟨d, hd, rfl⟩, hpos⟩ := h
  exact ⟨hd, rfl, by simpa using hpos⟩

theorem collect_none (idx : DatasetsIndex) :
    collectDatasets idx none =
      idx.opendosm.map (tagWith .opendosm) ++ idx.data_catalogue.map (tagWith .data_catalogue) := rfl

theorem source_of_mem_tag {s : DataSource} {l : List Dataset} {t : TaggedDataset}
    (h : t ∈ l.map (tagWith s)) : t.source = s := by
  obtain ⟨d, _, rfl⟩ := List.mem_map.mp h
  rfl

theorem listDatasets_datasets_sublist (idx : DatasetsIndex) (src : Option String)
    (cat : Option String) (limit offset : Nat) :
    (listDatasets idx src cat limit offset).datasets.Sublist (collectDatasets idx src) := by
  unfold listDatasets
  cases cat with
  | none => exact (List.take_sublist _ _).trans (List.drop_sublist _ _)
  | some c =>
      by_cases hc : c = "" <;> simp only [hc, if_true, if_false, reduceIte]
      · exact (List.take_sublist _ _).trans (List.drop_sublist _ _)
      · exact (List.take_sublist _ _).trans
          ((List.drop_sublist _ _).trans (List.filter_sublist _))

theorem foldl_append_params (fs : List (String × JsPrim)) (ps : List (String × String)) :
    fs.foldl (fun ps kv => ps ++ [(kv.1, jsPrimString kv.2)]) ps
      = ps ++ fs.map (fun kv => (kv.1, jsPrimString kv.2)) := by
  induction fs generalizing ps with
  | nil => simp
  | cons kv tl ih => simp [ih]

/-! ## Claim theorems -/

/-- C1: the `search_datasets` score of every record for every query equals
the reference scoring of the specification (§4.3) — query lower-cased,
case-insensitive comparisons, +100 exact id else +50 substring id, +30
name, +10 description, +40/+20 cumulatively per keyword — and records with
total score 0 never appear in the results. -/
theorem search_score_matches_spec :
    (∀ q d, scoreDataset (jsLower q) d = refScoreSpec q d)
  ∧ (∀ (idx : DatasetsIndex) (q : String) (src : Option String) (limit : Nat)
       (d : TaggedDataset), d ∈ searchDatasets idx q src limit →
       0 < scoreDataset (jsLower q) d) := by
  constructor
  · intro q d
    simp only [scoreDataset, refScoreSpec, kwFoldl_eq_sum]
    split_ifs <;> omega
  · intro idx q src limit d hd
    simp only [searchDatasets, List.mem_map] at hd
    obtain ⟨p, hp, rfl⟩ := hd
    have hp1 : p ∈ searchSorted idx src (jsLower q) := List.mem_of_mem_take hp
    have hp2 : p ∈ searchScored idx src (jsLower q) := by
      simpa [searchSorted, List.mem_insertionSort] using hp1
    obtain ⟨-, hscore, hpos⟩ := mem_searchScored hp2
    rw [← hscore]
    exact hpos

/-- Witness for C1 at concrete inputs: the two scorings agree on the
keyword-rich record, and a record appearing in concrete search output has
positive score. -/
theorem search_score_matches_spec_witness :
    scoreDataset (jsLower "gdp") (tagWith .opendosm dRich) = refScoreSpec "gdp" (tagWith .opendosm dRich)
  ∧ 0 < scoreDataset (jsLower "gdp") (tagWith .opendosm dExact) :=
  ⟨search_score_matches_spec.1 "gdp" (tagWith .opendosm dRich),
   search_score_matches_spec.2 cIdx3 "gdp" none 10 (tagWith .opendosm dExact) (by decide)⟩

/-- C2: the sorted scored sequence is non-increasing in score, ties keep
the order in which the records were encountered (stability of the sort),
and the handler's result is exactly the first `limit` records of that
sorted sequence, hence at most `limit` records. -/
theorem search_sorted_stable_truncated (idx : DatasetsIndex) (src : Option String)
    (q : String) (limit : Nat) :
    (searchSorted idx src (jsLower q)).Pairwise scoreOrder
  ∧ (∀ a b : Nat × TaggedDataset, a.1 = b.1 →
       List.Sublist [a, b] (searchScored idx src (jsLower q)) →
       List.Sublist [a, b] (searchSorted idx src (jsLower q)))
  ∧ searchDatasets idx q src limit
      = ((searchSorted idx src (jsLower q)).take limit).map (fun p => p.2)
  ∧ (searchDatasets idx q src limit).length ≤ limit := by
  refine ⟨List.sorted_insertionSort scoreOrder _, ?_, rfl, ?_⟩
  · intro a b hab hsub
    exact List.pair_sublist_insertionSort (show scoreOrder a b from le_of_eq hab.symm) hsub
  · simp only [searchDatasets, List.length_map, List.length_take]
    exact Nat.min_le_left _ _

/-- Witness for C2: two concrete records tying at score 30 keep their
encounter order through the sort. -/
theorem search_sorted_stable_truncated_witness :
    List.Sublist [((30 : Nat), tagWith .opendosm rAlpha), ((30 : Nat), tagWith .opendosm rAltitude)]
      (searchSorted cIdx2 none (jsLower "al")) :=
  (search_sorted_stable_truncated cIdx2 none "al" 10).2.1
    ((30 : Nat), tagWith .opendosm rAlpha) ((30 : Nat), tagWith .opendosm rAltitude)
    rfl (by decide)

/-- C3 counterexample: with `dExact = {id:"gdp", ...}` an exact id match
and `dRich = {id:"gdp_qtr", ...}` only a partial id match, the search for
`"gdp"` nevertheless ranks `dRich` (score 150 from name, description and
keyword bonuses) before `dExact` (score 100), refuting "exact id match
always outranks a partial id match". -/
theorem exact_id_outranked_counterexample :
    (jsLower "gdp" = jsLower (tagWith .opendosm dExact).id
      ∧ ¬ jsLower "gdp" = jsLower (tagWith .opendosm dRich).id
      ∧ jsIncludes (jsLower (tagWith .opendosm dRich).id) (jsLower "gdp") = true)
  ∧ searchDatasets cIdx3 "gdp" none 10 = [tagWith .opendosm dRich, tagWith .opendosm dExact] := by
  exact ⟨⟨by decide, by decide, by decide⟩, by decide⟩

/-- C3 amended: the id clause awards an exact match 100 and a partial match
at most 50, so the exact-id record strictly outscores the partial-id record
— and is never ranked after it in the sorted sequence — whenever its other
clauses contribute at least as much; in particular the specification's §8
example `search("gdp")` over `{id:"gdp"}` and `{id:"gdp_qtr"}` ranks
`"gdp"` first. -/
theorem exact_id_outranks_when_rest_le (ql : String) (d₁ d₂ : TaggedDataset)
    (h1 : ql = jsLower d₁.id) (h2 : ¬ ql = jsLower d₂.id)
    (h3 : restScore ql d₂ ≤ restScore ql d₁) :
    scoreDataset ql d₂ < scoreDataset ql d₁
  ∧ (∀ (idx : DatasetsIndex) (src : Option String),
      ¬ List.Sublist [(scoreDataset ql d₂, d₂), (scoreDataset ql d₁, d₁)]
          (searchSorted idx src ql))
  ∧ searchDatasets gdpIdx "gdp" none 10
      = [tagWith .opendosm gdpRec, tagWith .opendosm gdpQtrRec] := by
  have hlt : scoreDataset ql d₂ < scoreDataset ql d₁ := by
    rw [score_decomp, score_decomp]
    have hid1 : idScore ql d₁ = 100 := by simp [idScore, h1]
    have hid2 : idScore ql d₂ ≤ 50 := by
      simp only [idScore, h2, if_false]
      split <;> omega
    omega
  refine ⟨hlt, ?_, by decide⟩
  intro idx src hsub
  have hsorted : (searchSorted idx src ql).Pairwise scoreOrder :=
    List.sorted_insertionSort scoreOrder _
  have hrel := List.pairwise_pair.mp (List.Pairwise.sublist hsub hsorted)
  simp only [scoreOrder] at hrel
  omega

/-- Witness for C3's amended statement at the §8 example records. -/
theorem exact_id_outranks_when_rest_le_witness :
    scoreDataset "gdp" (tagWith .opendosm gdpQtrRec) < scoreDataset "gdp" (tagWith .opendosm gdpRec)
  ∧ searchDatasets gdpIdx "gdp" none 10
      = [tagWith .opendosm gdpRec, tagWith .opendosm gdpQtrRec] :=
  ⟨(exact_id_outranks_when_rest_le "gdp" (tagWith .opendosm gdpRec) (tagWith .opendosm gdpQtrRec)
      (by decide) (by decide) (by decide)).1,
   (exact_id_outranks_when_rest_le "gdp" (tagWith .opendosm gdpRec) (tagWith .opendosm gdpQtrRec)
      (by decide) (by decide) (by decide)).2.2⟩

/-- C4 counterexample: the handler's test `if (category)` treats the given
empty-string category filter `some ""` as falsy and skips filtering, so a
record whose category is `"Prices"` is kept, while the claimed behaviour
(keep exactly the records whose category equals the filter) would drop it. -/
theorem list_empty_category_counterexample :
    listDatasets cIdx4 none (some "") 100 0 ≠ listSpecRef cIdx4 none (some "") 100 0 := by
  decide

/-- C4 amended: whenever the category filter is absent or non-empty (a
given empty-string filter is falsy in JavaScript and acts as no filter),
`list_datasets` agrees with the specification's reference behaviour —
case-insensitive category filtering that drops category-less records,
`total` counted before pagination, slice `[offset, offset+limit)` — and an
offset at or beyond `total` yields an empty record list. -/
theorem list_filter_pagination_correct (idx : DatasetsIndex) (src : Option String)
    (cat : Option String) (limit offset : Nat)
    (hcat : cat = none ∨ ∃ c, cat = some c ∧ c ≠ "") :
    listDatasets idx src cat limit offset = listSpecRef idx src cat limit offset
  ∧ ((listDatasets idx src cat limit offset).total ≤ offset →
      (listDatasets idx src cat limit offset).datasets = []) := by
  constructor
  · rcases hcat with rfl | ⟨c, rfl, hc⟩
    · rfl
    · simp only [listDatasets, listSpecRef, if_neg hc]
  · intro h
    simp only [listDatasets] at h ⊢
    rw [List.drop_eq_nil_of_le h, List.take_nil]

/-- Witness for C4's amended statement: a non-empty filter agrees with the
reference, and an offset past `total` yields no records. -/
theorem list_filter_pagination_correct_witness :
    listDatasets cIdx4 none (some "Prices") 10 0 = listSpecRef cIdx4 none (some "Prices") 10 0
  ∧ (listDatasets cIdx4 none none 5 7).datasets = [] :=
  ⟨(list_filter_pagination_correct cIdx4 none (some "Prices") 10 0
      (Or.inr ⟨"Prices", rfl, by decide⟩)).1,
   (list_filter_pagination_correct cIdx4 none none 5 7 (Or.inl rfl)).2 (by decide)⟩

/-- C5: the query parameters built by the client equal the specification's
reference construction — `id` first, then `meta_only=true` (omitting
`limit`/`offset`) when `metaOnly`, else decimal `limit` and `offset` with
defaults 100 and 0, then one parameter per filter entry with the value
stringified — and the §8 example produces exactly
`id=gdp&limit=5&offset=0&date=2024-01-01`. -/
theorem query_params_match_spec :
    (∀ id o, buildParams id o = specParams id o)
  ∧ buildParams "gdp"
      { filters := some [("date", .str "2024-01-01")], limit := some 5, offset := some 0 }
      = [("id", "gdp"), ("limit", "5"), ("offset", "0"), ("date", "2024-01-01")] := by
  constructor
  · intro id o
    rcases o with ⟨filters, limit, offset, metaOnly⟩
    cases filters <;> by_cases hm : metaOnly.getD false <;>
      simp [buildParams, specParams, hm, foldl_append_params]
  · decide

/-- C6: both client calls fail on a non-2xx response with an error carrying
the HTTP status code and status text (in their respective message format),
consume the single response with no retry, and on a 2xx response return the
decoded body unmodified and unvalidated. -/
theorem client_response_handling {β : Type} (fO fD : List (String × String) → HttpResponse β)
    (id : String) (o : QueryOptions) :
    (respOk (fO (buildParams id o)) = false →
      queryOpenDOSM fO id o = .error ("OpenDOSM API error: "
        ++ toString (fO (buildParams id o)).status ++ " " ++ (fO (buildParams id o)).statusText))
  ∧ (respOk (fO (buildParams id o)) = true →
      queryOpenDOSM fO id o = .ok (fO (buildParams id o)).body)
  ∧ (respOk (fD (buildParams id o)) = false →
      queryDataCatalogue fD id o = .error ("Data Catalogue API error: "
        ++ toString (fD (buildParams id o)).status ++ " " ++ (fD (buildParams id o)).statusText))
  ∧ (respOk (fD (buildParams id o)) = true →
      queryDataCatalogue fD id o = .ok (fD (buildParams id o)).body) := by
  refine ⟨fun h => ?_, fun h => ?_, fun h => ?_, fun h => ?_⟩ <;>
    simp [queryOpenDOSM, queryDataCatalogue, h]

/-- Witness for C6 with concrete 404 and 200 responses. -/
theorem client_response_handling_witness :
    queryOpenDOSM fetch404 "gdp" {} = .error "OpenDOSM API error: 404 Not Found"
  ∧ queryOpenDOSM fetch200 "gdp" {} = .ok 7
  ∧ queryDataCatalogue fetch404 "gdp" {} = .error "Data Catalogue API error: 404 Not Found"
  ∧ queryDataCatalogue fetch200 "gdp" {} = .ok 7 :=
  ⟨(client_response_handling fetch404 fetch404 "gdp" {}).1 (by decide),
   (client_response_handling fetch200 fetch200 "gdp" {}).2.1 (by decide),
   (client_response_handling fetch404 fetch404 "gdp" {}).2.2.1 (by decide),
   (client_response_handling fetch200 fetch200 "gdp" {}).2.2.2 (by decide)⟩

/-- C7: every error raised inside the dispatch is returned as structured
`{error, tool, arguments}` content with `isError: true` (the handler is a
total function, so nothing escapes uncaught, and each dispatch runs once,
so nothing is retried); an unknown tool name yields the
`Unknown tool: <name>` error; and an unknown source passed to the
metadata or schema tool yields the validation error naming the two accepted
values. -/
theorem tool_error_handling {β : Type} (env : ToolEnv β) (name : String)
    (args : ToolCallArgs) :
    (∀ msg, innerDispatch env name args = .error msg →
      handleToolCall env name args = { content := .failure msg name args, isError := true })
  ∧ (name ∉ knownToolNames →
      handleToolCall env name args
        = { content := .failure ("Unknown tool: " ++ name) name args, isError := true })
  ∧ (name = "get_dataset_metadata" → args.source ≠ some "opendosm" →
      args.source ≠ some "data_catalogue" →
      handleToolCall env name args
        = { content := .failure "Invalid source. Must be 'opendosm' or 'data_catalogue'" name args,
            isError := true })
  ∧ (name = "get_dataset_schema" → args.source ≠ some "opendosm" →
      args.source ≠ some "data_catalogue" →
      handleToolCall env name args
        = { content := .failure "Invalid source. Must be 'opendosm' or 'data_catalogue'" name args,
            isError := true }) := by
  refine ⟨?_, ?_, ?_, ?_⟩
  · intro msg h
    simp [handleToolCall, h]
  · intro h
    simp only [knownToolNames, List.mem_cons, List.not_mem_nil, or_false, not_or] at h
    obtain ⟨h1, h2, h3, h4, h5, h6⟩ := h
    simp [handleToolCall, innerDispatch, h1, h2, h3, h4, h5, h6]
  · rintro rfl hs1 hs2
    simp [handleToolCall, innerDispatch, hs1, hs2]
  · rintro rfl hs1 hs2
    simp [handleToolCall, innerDispatch, hs1, hs2]

/-- Witness for C7: an unknown tool name and an invalid metadata source,
both answered with `isError: true` content. -/
theorem tool_error_handling_witness :
    handleToolCall env0 "nope" {}
      = { content := .failure ("Unknown tool: " ++ "nope") "nope" {}, isError := true }
  ∧ handleToolCall env0 "get_dataset_metadata" { source := some "wrong" }
      = { content := .failure "Invalid source. Must be 'opendosm' or 'data_catalogue'"
            "get_dataset_metadata" { source := some "wrong" }, isError := true } :=
  ⟨(tool_error_handling env0 "nope" {}).2.1 (by decide),
   (tool_error_handling env0 "get_dataset_metadata" { source := some "wrong" }).2.2.1
      rfl (by decide) (by decide)⟩

/-- C8: for a valid source, `get_dataset_schema` composes exactly the
static index record found by id (falling back to the placeholder
`{id, name: "Unknown"}`), the metadata fetched with `metaOnly = true`, and
a sample fetched with the fixed limit of 3 rows, into one result object. -/
theorem schema_composition {β : Type} (env : ToolEnv β) (id src : String)
    (args : ToolCallArgs) (hid : args.dataset_id = id) (hsrc : args.source = some src)
    (hvalid : src = "opendosm" ∨ src = "data_catalogue") (m s : β)
    (hm : (if src = "opendosm" then queryOpenDOSM env.fetchOpenDOSM id { metaOnly := some true }
           else queryDataCatalogue env.fetchDataCatalogue id { metaOnly := some true }) = .ok m)
    (hs : (if src = "opendosm" then queryOpenDOSM env.fetchOpenDOSM id { limit := some 3 }
           else queryDataCatalogue env.fetchDataCatalogue id { limit := some 3 }) = .ok s) :
    innerDispatch env "get_dataset_schema" args =
      .ok (.schema { dataset_id := id, source := some src,
                     info := schemaInfoLookup env.index
                       (if src = "opendosm" then .opendosm else .data_catalogue) id,
                     metadata := m, sample_data := s }) := by
  subst hid
  rcases hvalid with rfl | rfl
  · rw [if_pos rfl] at hm hs
    simp [innerDispatch, hsrc, hm, hs, indexSide, schemaInfoLookup]
  · rw [if_neg (by decide)] at hm hs
    simp [innerDispatch, hsrc, hm, hs, indexSide, schemaInfoLookup]

/-- Witness for C8: the specification's §8 example — `"fuelprice"` from
`data_catalogue`, absent from the static index — yields the placeholder
info plus the meta-only metadata and the 3-row sample. -/
theorem schema_composition_witness :
    innerDispatch envEcho "get_dataset_schema"
        { dataset_id := "fuelprice", source := some "data_catalogue" }
      = .ok (.schema { dataset_id := "fuelprice", source := some "data_catalogue",
                       info := .placeholder "fuelprice" "Unknown",
                       metadata := [("id", "fuelprice"), ("meta_only", "true")],
                       sample_data := [("id", "fuelprice"), ("limit", "3"), ("offset", "0")] }) := by
  have h := schema_composition envEcho "fuelprice" "data_catalogue"
    { dataset_id := "fuelprice", source := some "data_catalogue" } rfl rfl (Or.inr rfl)
    [("id", "fuelprice"), ("meta_only", "true")]
    [("id", "fuelprice"), ("limit", "3"), ("offset", "0")]
    (by rfl) (by rfl)
  simpa using h

/-- C9 (implicit): with no source filter, the candidate sequence is the
opendosm records followed by the data-catalogue records; hence in
`list_datasets` output no data-catalogue record ever precedes an opendosm
record, and in `search_datasets` a score tie between an opendosm record and
a data-catalogue record is resolved with the opendosm record first. -/
theorem opendosm_before_catalogue (idx : DatasetsIndex) (cat : Option String)
    (limit offset : Nat) (q : String) :
    collectDatasets idx none
      = idx.opendosm.map (tagWith .opendosm) ++ idx.data_catalogue.map (tagWith .data_catalogue)
  ∧ (listDatasets idx none cat limit offset).datasets.Pairwise
      (fun a b => a.source = .data_catalogue → b.source = .data_catalogue)
  ∧ (∀ a b : Nat × TaggedDataset,
       a ∈ searchScored idx none (jsLower q) → b ∈ searchScored idx none (jsLower q) →
       a.1 = b.1 → a.2.source = .opendosm → b.2.source = .data_catalogue →
       List.Sublist [a, b] (searchSorted idx none (jsLower q))) := by
  refine ⟨collect_none idx, ?_, ?_⟩
  · have hbase : (collectDatasets idx none).Pairwise
        (fun a b => a.source = .data_catalogue → b.source = .data_catalogue) := by
      rw [collect_none]
      refine List.pairwise_append.mpr ⟨?_, ?_, ?_⟩
      · refine List.pairwise_of_forall_mem_list ?_
        intro a ha b _ hdc
        rw [source_of_mem_tag ha] at hdc
        exact absurd hdc (by simp)
      · refine List.pairwise_of_forall_mem_list ?_
        intro a _ b hb _
        exact source_of_mem_tag hb
      · intro a _ b hb _
        exact source_of_mem_tag hb
    exact List.Pairwise.sublist (listDatasets_datasets_sublist idx none cat limit offset) hbase
  · intro a b ha hb heq hsa hsb
    have hsplit : searchScored idx none (jsLower q)
        = ((idx.opendosm.map (tagWith .opendosm)).map
             (fun d => (scoreDataset (jsLower q) d, d))).filter (fun p => decide (0 < p.1))
          ++ ((idx.data_catalogue.map (tagWith .data_catalogue)).map
             (fun d => (scoreDataset (jsLower q) d, d))).filter (fun p => decide (0 < p.1)) := by
      simp [searchScored, collect_none, List.filter_append]
    have hsnd : ∀ (l : List Dataset) (sKey : DataSource) (p : Nat × TaggedDataset),
        p ∈ ((l.map (tagWith sKey)).map
              (fun d => (scoreDataset (jsLower q) d, d))).filter (fun p => decide (0 < p.1)) →
        p.2.source = sKey := by
      intro l sKey p hp
      have h1 := (List.mem_filter.mp hp).1
      obtain ⟨d, hd, rfl⟩ := List.mem_map.mp h1
      exact source_of_mem_tag hd
    rw [hsplit] at ha hb
    have haA : a ∈ ((idx.opendosm.map (tagWith .opendosm)).map
        (fun d => (scoreDataset (jsLower q) d, d))).filter (fun p => decide (0 < p.1)) := by
      rcases List.mem_append.mp ha with h | h
      · exact h
      · have := hsnd _ _ _ h
        rw [hsa] at this
        exact absurd this (by simp)
    have hbB : b ∈ ((idx.data_catalogue.map (tagWith .data_catalogue)).map
        (fun d => (scoreDataset (jsLower q) d, d))).filter (fun p => decide (0 < p.1)) := by
      rcases List.mem_append.mp hb with h | h
      · have := hsnd _ _ _ h
        rw [hsb] at this
        exact absurd this (by simp)
      · exact h
    have hls := List.Sublist.append
      (List.singleton_sublist.mpr haA) (List.singleton_sublist.mpr hbB)
    rw [← hsplit] at hls
    exact List.pair_sublist_insertionSort (show scoreOrder a b from le_of_eq heq.symm) hls

/-- Witness for C9: one opendosm and one data-catalogue record tying at
score 30 on the query `"z"` appear opendosm-first in the sorted sequence. -/
theorem opendosm_before_catalogue_witness :
    List.Sublist [((30 : Nat), tagWith .opendosm rZeta), ((30 : Nat), tagWith .data_catalogue rZinc)]
      (searchSorted cIdx9 none (jsLower "z")) :=
  (opendosm_before_catalogue cIdx9 none 10 0 "z").2.2
    ((30 : Nat), tagWith .opendosm rZeta) ((30 : Nat), tagWith .data_catalogue rZinc)
    (by decide) (by decide) rfl rfl rfl

/-- C10 (implicit): with the empty query every candidate record scores at
least 40 (the name and description substring clauses always fire on the
empty string), so no record is excluded and the search returns exactly
`min limit (number of candidate records)` records. -/
theorem empty_query_returns_all (idx : DatasetsIndex) (src : Option String) (limit : Nat) :
    (∀ d ∈ collectDatasets idx src, 0 < scoreDataset (jsLower "") d)
  ∧ (searchDatasets idx "" src limit).length = min limit (collectDatasets idx src).length := by
  have h0 : jsLower "" = "" := rfl
  have key : ∀ d : TaggedDataset, 0 < scoreDataset (jsLower "") d := by
    intro d
    rw [h0]
    simp only [scoreDataset]
    refine Nat.lt_of_lt_of_le ?_ (kwFoldl_le "" _ _)
    simp only [jsIncludes_empty]
    split_ifs <;> omega
  refine ⟨fun d _ => key d, ?_⟩
  have hall : searchScored idx src (jsLower "")
      = (collectDatasets idx src).map (fun d => (scoreDataset (jsLower "") d, d)) := by
    apply List.filter_eq_self.mpr
    intro p hp
    obtain ⟨d, _, rfl⟩ := List.mem_map.mp hp
    simpa using key d
  simp only [searchDatasets, searchSorted, List.length_map, List.length_take,
    List.length_insertionSort, hall]

/-- Witness for C10 on a one-record index. -/
theorem empty_query_returns_all_witness :
    0 < scoreDataset (jsLower "") (tagWith .opendosm rPrices)
  ∧ (searchDatasets cIdx4 "" none 5).length = min 5 (collectDatasets cIdx4 none).length :=
  ⟨(empty_query_returns_all cIdx4 none 5).1 (tagWith .opendosm rPrices) (by decide),
   (empty_query_returns_all cIdx4 none 5).2⟩

end DataGovMy
